import Mathlib

/-!
A shallow embedding of `src/TrainingCenter.py`, a small Flask service that
registers training-center records and lists them with filters.

Modelling conventions:
* JSON request bodies are typed records with `Option` fields; a key that is
  absent from the Python dict is `none`.
* Python strings are Lean `String`; `','.join` and `.split(',')` are modelled
  on `String.data` with the list-level `List.intercalate` / `List.splitOn`.
* `re.match(pat, s)` anchors at the start of `s` only, so it is a prefix
  match; it is modelled with a Brzozowski-derivative matcher (`RE`), where a
  prefix match of `r` is a full match of `r` followed by `.*` over any
  characters.  Truthiness of the returned match object becomes `Bool`.
* The SQLAlchemy session is a `Store`: the list of committed rows in
  insertion order plus the next primary key.  `db.session.commit()` may fail;
  the possible failure is an explicit `commitError : Option String` argument
  (`none` = commit succeeds).  `db.session.rollback()` restores the store
  that existed before the `add`, so the failing branch returns the input
  store unchanged.
* `created_on` has an insert-time default of the current unix timestamp,
  passed in as `now : Nat`.
* `jsonify(x), code` becomes a pair `(Body, Nat)`.
-/

/-- A JSON value as produced by the serializer: strings, numbers, null,
arrays of strings (the course list) and the flat string-valued address
object. -/
inductive JVal where
  | s (v : String)
  | n (v : Int)
  | nil
  | arr (vs : List String)
  | obj (fields : List (String × String))
deriving DecidableEq, Repr

/-- A response body: an error object, a single serialized record (a JSON
object as an ordered association list), or an array of serialized records. -/
inductive Body where
  | err (msg : String)
  | record (fields : List (String × JVal))
  | records (items : List (List (String × JVal)))
deriving DecidableEq, Repr

/-- One row of the `training_center` table (class `TrainingCenter`,
`src/TrainingCenter.py` lines 11-23).  `courses_offered` is the delimited
storage string; optional columns are `Option`. -/
structure TrainingCenter where
  id : Nat
  center_name : String
  center_code : String
  detailed_address : String
  city : String
  state : String
  pincode : String
  student_capacity : Option Int
  courses_offered : String
  created_on : Nat
  contact_email : Option String
  contact_phone : String
deriving DecidableEq, Repr

/-- The database state: committed rows in store-native (insertion) order,
plus the next auto-assigned primary key. -/
structure Store where
  rows : List TrainingCenter
  nextId : Nat
deriving DecidableEq, Repr

/-- The nested `address` object of a create request; each key may be absent. -/
structure AddressReq where
  detailed_address : Option String
  city : Option String
  state : Option String
  pincode : Option String
deriving DecidableEq, Repr

/-- A create request body (`request.json`); `none` models an absent key. -/
structure CreateRequest where
  center_name : Option String
  center_code : Option String
  address : Option AddressReq
  contact_phone : Option String
  contact_email : Option String
  student_capacity : Option Int
  courses_offered : Option (List String)
deriving DecidableEq, Repr

/-! ### Python string split / join -/

/-- Python `s.split(',')`, modelled on the character list: split at every
comma; `"".split(',') = [""]`, `"a,".split(',') = ["a", ""]`. -/
def splitComma (s : String) : List String :=
  (s.data.splitOn ',').map String.mk

/-- Python `','.join(l)`. -/
def joinComma (l : List String) : String :=
  ⟨[','].intercalate (l.map String.data)⟩

/-- The list stored in `courses_offered`, reconstructed on read
(`to_dict`, line 36): Python truthiness makes the empty string give the
empty list, every other string is split on commas. -/
def courses_list (s : String) : List String :=
  if s = "" then [] else splitComma s

/-! ### The regular-expression matcher

`re` patterns used by the source are over the alphabet of characters with
character classes, concatenation, alternation and Kleene star; matching is
by Brzozowski derivatives. -/

/-- Regular expressions with Boolean character classes. -/
inductive RE where
  | eps
  | cls (p : Char → Bool)
  | cat (a b : RE)
  | alt (a b : RE)
  | star (a : RE)

/-- Does the regex accept the empty word? -/
def RE.nullable : RE → Bool
  | .eps => true
  | .cls _ => false
  | .cat a b => a.nullable && b.nullable
  | .alt a b => a.nullable || b.nullable
  | .star _ => true

/-- Brzozowski derivative with respect to one character. -/
def RE.deriv : RE → Char → RE
  | .eps, _ => .cls fun _ => false
  | .cls p, c => if p c then .eps else .cls fun _ => false
  | .cat a b, c =>
      if a.nullable then .alt (.cat (a.deriv c) b) (b.deriv c)
      else .cat (a.deriv c) b
  | .alt a b, c => .alt (a.deriv c) (b.deriv c)
  | .star a, c => .cat (a.deriv c) (.star a)

/-- Full match of a character list. -/
def RE.matchList : RE → List Char → Bool
  | r, [] => r.nullable
  | r, c :: cs => (r.deriv c).matchList cs

/-- Full match of a string (`re.fullmatch`, or `re.match` of a pattern that
ends in `$`). -/
def RE.fullmatch (r : RE) (s : String) : Bool :=
  r.matchList s.data

/-- `re.match`: the pattern must match some prefix of the string, so pad the
pattern with `.*` over arbitrary characters and do a full match. -/
def RE.prefixmatch (r : RE) (s : String) : Bool :=
  (RE.cat r (RE.star (.cls fun _ => true))).fullmatch s

/-- `r+` -/
def RE.plus (a : RE) : RE := .cat a (.star a)

/-- A literal character. -/
def RE.lit (c : Char) : RE := .cls (· == c)

/-- `r{n}` -/
def RE.pow (a : RE) : Nat → RE
  | 0 => .eps
  | n + 1 => .cat a (a.pow n)

/-- The email pattern of the source, `[^@]+@[^@]+\.[^@]+` (line 44). -/
def emailRE : RE :=
  .cat (RE.plus (.cls (· != '@')))
    (.cat (RE.lit '@')
      (.cat (RE.plus (.cls (· != '@')))
        (.cat (RE.lit '.') (RE.plus (.cls (· != '@'))))))

/-- `validate_email` (line 43-44): `re.match` of `emailRE`, truthiness of the
match object as `Bool`. -/
def validate_email (email : String) : Bool :=
  emailRE.prefixmatch email

/-- `validate_phone` (line 46-47): `re.match(r"^\d{10}$", phone)`, i.e. a
full match of exactly ten decimal digits. -/
def validate_phone (phone : String) : Bool :=
  (RE.pow (.cls Char.isDigit) 10).fullmatch phone

/-- The email pattern as the specification words it: one-or-more non-@
chars, `@`, one-or-more non-@ chars, `.`, one-or-more chars.  This is a
spec-side definition, written from the words of the spec for comparison with
`emailRE`; it differs in the final factor, which admits any character. -/
def specEmailRE : RE :=
  .cat (RE.plus (.cls (· != '@')))
    (.cat (RE.lit '@')
      (.cat (RE.plus (.cls (· != '@')))
        (.cat (RE.lit '.') (RE.plus (.cls fun _ => true)))))

/-! ### Serializer -/

/-- A Python optional integer as a JSON value (`None` serializes to null). -/
def JVal.ofOptInt : Option Int → JVal
  | some v => .n v
  | none => .nil

/-- A Python optional string as a JSON value. -/
def JVal.ofOptStr : Option String → JVal
  | some v => .s v
  | none => .nil

/-- `TrainingCenter.to_dict` (lines 25-40): the wire representation, an
ordered JSON object.  The stored course string is split back into a
sequence; the address fields are nested; `id` is not included. -/
def TrainingCenter.to_dict (r : TrainingCenter) : List (String × JVal) :=
  [ ("center_name", .s r.center_name),
    ("center_code", .s r.center_code),
    ("address", .obj
      [ ("detailed_address", r.detailed_address),
        ("city", r.city),
        ("state", r.state),
        ("pincode", r.pincode) ]),
    ("student_capacity", .ofOptInt r.student_capacity),
    ("courses_offered", .arr (courses_list r.courses_offered)),
    ("created_on", .n (r.created_on : Int)),
    ("contact_email", .ofOptStr r.contact_email),
    ("contact_phone", .s r.contact_phone) ]

/-- The record-assembly step of the create handler (the
`TrainingCenter(...)` constructor call, lines 129-140) together with the
store-assigned `id` and `created_on` default (line 21): flattens the address
and joins `courses_offered` into the delimited storage form.  This is the
`fromRequest` direction of the serializer. -/
def fromRequest (rid : Nat) (center_name center_code : String)
    (detailed_address city state pincode : String)
    (student_capacity : Option Int) (courses_offered : List String)
    (contact_email : Option String) (contact_phone : String)
    (created_on : Nat) : TrainingCenter :=
  { id := rid
    center_name := center_name
    center_code := center_code
    detailed_address := detailed_address
    city := city
    state := state
    pincode := pincode
    student_capacity := student_capacity
    courses_offered := joinComma courses_offered
    created_on := created_on
    contact_email := contact_email
    contact_phone := contact_phone }

/-! ### Handlers -/

/-- `create_training_center` (lines 99-149).  Checks run in source order;
each failing check returns 400 with its message and the untouched store.
`now` is the current unix timestamp, `commitError` the outcome of
`db.session.commit()` (`some e` = raised exception with message `e`, the
session is rolled back). -/
def create_training_center (store : Store) (now : Nat)
    (commitError : Option String) (data : CreateRequest) :
    (Body × Nat) × Store :=
  match data.center_name with
  | none => ((.err "center_name is required", 400), store)
  | some center_name =>
  match data.center_code with
  | none => ((.err "center_code is required", 400), store)
  | some center_code =>
  match data.address with
  | none => ((.err "address is required", 400), store)
  | some address =>
  match data.contact_phone with
  | none => ((.err "contact_phone is required", 400), store)
  | some contact_phone =>
  if center_name.length > 40 then
    ((.err "CenterName should be less than 40 characters", 400), store)
  else if center_code.length ≠ 12 then
    ((.err "CenterCode should be exactly 12 characters", 400), store)
  else if data.contact_email.any (fun e => !validate_email e) then
    ((.err "Invalid email format", 400), store)
  else if !validate_phone contact_phone then
    ((.err "Invalid phone number format", 400), store)
  else
  match address.detailed_address, address.city, address.state,
      address.pincode with
  | some detailed_address, some city, some state, some pincode =>
    match store.rows.find? (fun r => r.center_code == center_code) with
    | some _ =>
      ((.err "A training center with this CenterCode already exists", 400),
        store)
    | none =>
      let new_center := fromRequest store.nextId center_name center_code
        detailed_address city state pincode data.student_capacity
        (data.courses_offered.getD []) data.contact_email contact_phone now
      match commitError with
      | some e => ((.err ("Database error: " ++ e), 500), store)
      | none =>
        ((.record new_center.to_dict, 201),
          ⟨store.rows ++ [new_center], store.nextId + 1⟩)
  | _, _, _, _ => ((.err "Incomplete address details", 400), store)

/-- Look a key up in the query string (`request.args`), first match wins. -/
def qget (q : List (String × String)) (k : String) : Option String :=
  (q.find? (fun p => p.1 == k)).map (·.2)

/-- `get_training_centers` (lines 152-165): apply the `city`, `state` and
`pincode` filters that are present, in that order, and serialize. -/
def get_training_centers (store : Store) (q : List (String × String)) :
    Body × Nat :=
  let rows0 : List TrainingCenter := store.rows
  let rows1 : List TrainingCenter := match qget q "city" with
    | some v => rows0.filter (fun r => r.city == v)
    | none => rows0
  let rows2 : List TrainingCenter := match qget q "state" with
    | some v => rows1.filter (fun r => r.state == v)
    | none => rows1
  let rows3 : List TrainingCenter := match qget q "pincode" with
    | some v => rows2.filter (fun r => r.pincode == v)
    | none => rows2
  (.records (rows3.map TrainingCenter.to_dict), 200)

/-! ### Spec-side descriptions used to state the claims -/

/-- The validator of spec section 4.1: the six checks in the specified
order, short-circuiting at the first failure, returning its message. -/
def specValidation (data : CreateRequest) : Option String :=
  match data.center_name with
  | none => some "center_name is required"
  | some center_name =>
  match data.center_code with
  | none => some "center_code is required"
  | some center_code =>
  match data.address with
  | none => some "address is required"
  | some address =>
  match data.contact_phone with
  | none => some "contact_phone is required"
  | some contact_phone =>
  if center_name.length > 40 then
    some "CenterName should be less than 40 characters"
  else if center_code.length ≠ 12 then
    some "CenterCode should be exactly 12 characters"
  else if data.contact_email.any (fun e => !validate_email e) then
    some "Invalid email format"
  else if !validate_phone contact_phone then
    some "Invalid phone number format"
  else if address.detailed_address.isSome && address.city.isSome &&
      address.state.isSome && address.pincode.isSome then
    none
  else
    some "Incomplete address details"

/-- Is a row with this center code already stored? (the pre-insert
duplicate check, line 125) -/
def dup_exists (store : Store) (code : String) : Bool :=
  (store.rows.find? (fun r => r.center_code == code)).isSome

/-- The conjunctive filter predicate of the List endpoint, as the spec
states it: every supplied filter must match exactly, an absent filter is
not applied. -/
def matchesFilters (q : List (String × String)) (r : TrainingCenter) : Bool :=
  (match qget q "city" with
    | some v => r.city == v
    | none => true) &&
  (match qget q "state" with
    | some v => r.state == v
    | none => true) &&
  (match qget q "pincode" with
    | some v => r.pincode == v
    | none => true)

/-! ### Sample data for instantiating the theorems -/

/-- A valid sample create request used to instantiate the theorems. -/
def sampleRequest : CreateRequest :=
  { center_name := some "Alpha"
    center_code := some "ABC123456789"
    address := some ⟨some "12 Main St", some "Pune", some "MH", some "411001"⟩
    contact_phone := some "1234567890"
    contact_email := none
    student_capacity := none
    courses_offered := none }

/-- A stored sample record used to instantiate the theorems. -/
def sampleRow : TrainingCenter :=
  { id := 1
    center_name := "Alpha"
    center_code := "ABC123456789"
    detailed_address := "12 Main St"
    city := "Pune"
    state := "MH"
    pincode := "411001"
    student_capacity := none
    courses_offered := ""
    created_on := 5
    contact_email := none
    contact_phone := "1234567890" }

/-! ### Helper lemmas -/

/-- Joining the reconstructed course list restores the stored string:
`','.join` is a left inverse of the read-side split. -/
theorem joinComma_courses_list (s : String) :
    joinComma (courses_list s) = s := by
  unfold courses_list
  split
  · next h => subst h; rfl
  · next h =>
    unfold joinComma splitComma
    rw [List.map_map]
    have hid : String.data ∘ String.mk = id := rfl
    rw [hid, List.map_id, List.intercalate_splitOn]

/-! ### Claim theorems -/

/-- C1: for every stored record, reassembling it from its wire form
(`fromRequest` applied to the serialized fields of `to_dict`) reconstructs
the record up to the store-assigned `id` and `created_on`; in particular
the serialized `courses_offered` sequence is exactly the split of the
delimited storage string, in its original order. -/
theorem c1_serialization_roundtrip (r : TrainingCenter) (i n : Nat) :
    fromRequest i r.center_name r.center_code r.detailed_address r.city
      r.state r.pincode r.student_capacity (courses_list r.courses_offered)
      r.contact_email r.contact_phone n
      = { r with id := i, created_on := n }
    ∧ r.to_dict.lookup "courses_offered"
      = some (.arr (courses_list r.courses_offered)) := by
  constructor
  · unfold fromRequest
    rw [joinComma_courses_list]
  · rfl

/-- C8: the wire representation of every stored record has exactly the
eight documented fields, in serializer order, with the four address parts
nested under the address key; the store-assigned id never appears. -/
theorem c8_wire_shape (r : TrainingCenter) :
    r.to_dict.map Prod.fst
      = ["center_name", "center_code", "address", "student_capacity",
         "courses_offered", "created_on", "contact_email", "contact_phone"]
    ∧ r.to_dict.lookup "address"
      = some (.obj
          [ ("detailed_address", r.detailed_address),
            ("city", r.city),
            ("state", r.state),
            ("pincode", r.pincode) ])
    ∧ "id" ∉ r.to_dict.map Prod.fst := by
  refine ⟨rfl, rfl, ?_⟩
  have h : r.to_dict.map Prod.fst
      = ["center_name", "center_code", "address", "student_capacity",
         "courses_offered", "created_on", "contact_email", "contact_phone"] := rfl
  rw [h]
  decide

/-- A validation failure determines all the pieces of a passing request:
if the spec validator accepts, every required key is present, the lengths
are in range, and email (when given) and phone match their patterns. -/
theorem specValidation_none_components (data : CreateRequest)
    (h : specValidation data = none) :
    ∃ nm cd ph a da ci st pc,
      data.center_name = some nm ∧ data.center_code = some cd ∧
      data.contact_phone = some ph ∧ data.address = some a ∧
      a.detailed_address = some da ∧ a.city = some ci ∧
      a.state = some st ∧ a.pincode = some pc ∧
      ¬ nm.length > 40 ∧ ¬ cd.length ≠ 12 ∧
      data.contact_email.any (fun e => !validate_email e) = false ∧
      validate_phone ph = true := by
  unfold specValidation at h
  repeat' split at h
  all_goals simp_all [Option.isSome_iff_exists]

/-- On a request that passes every pure check and whose center code is not
yet stored, the create handler reaches the insert: it fails 500 and leaves
the store untouched exactly when the commit fails, and otherwise appends
the assembled record and returns it serialized with 201. -/
theorem create_valid_eq (store : Store) (now : Nat) (ce : Option String)
    (data : CreateRequest) (nm cd ph : String) (a : AddressReq)
    (da ci st pc : String)
    (hn : data.center_name = some nm) (hc : data.center_code = some cd)
    (hp : data.contact_phone = some ph) (ha : data.address = some a)
    (hda : a.detailed_address = some da) (hci : a.city = some ci)
    (hst : a.state = some st) (hpc : a.pincode = some pc)
    (hlen : ¬ nm.length > 40) (hcl : ¬ cd.length ≠ 12)
    (he : data.contact_email.any (fun e => !validate_email e) = false)
    (hph : validate_phone ph = true)
    (hdup : store.rows.find? (fun r => r.center_code == cd) = none) :
    create_training_center store now ce data =
      (match ce with
        | some e => ((.err ("Database error: " ++ e), 500), store)
        | none =>
          ((.record (fromRequest store.nextId nm cd da ci st pc
              data.student_capacity (data.courses_offered.getD [])
              data.contact_email ph now).to_dict, 201),
            ⟨store.rows ++ [fromRequest store.nextId nm cd da ci st pc
              data.student_capacity (data.courses_offered.getD [])
              data.contact_email ph now], store.nextId + 1⟩)) := by
  unfold create_training_center
  rw [hn, hc, ha, hp]
  simp only [hda, hci, hst, hpc, hdup, he, hph, if_neg hlen, if_neg hcl,
    Bool.not_true, Bool.false_eq_true, if_false]

/-- On a request that passes every pure check but whose center code is
already stored, the create handler answers 400 with the duplicate message
and does not touch the store. -/
theorem create_dup_eq (store : Store) (now : Nat) (ce : Option String)
    (data : CreateRequest) (nm cd ph : String) (a : AddressReq)
    (da ci st pc : String) (r0 : TrainingCenter)
    (hn : data.center_name = some nm) (hc : data.center_code = some cd)
    (hp : data.contact_phone = some ph) (ha : data.address = some a)
    (hda : a.detailed_address = some da) (hci : a.city = some ci)
    (hst : a.state = some st) (hpc : a.pincode = some pc)
    (hlen : ¬ nm.length > 40) (hcl : ¬ cd.length ≠ 12)
    (he : data.contact_email.any (fun e => !validate_email e) = false)
    (hph : validate_phone ph = true)
    (hdup : store.rows.find? (fun r => r.center_code == cd) = some r0) :
    create_training_center store now ce data =
      ((.err "A training center with this CenterCode already exists", 400),
        store) := by
  unfold create_training_center
  rw [hn, hc, ha, hp]
  simp only [hda, hci, hst, hpc, hdup, he, hph, if_neg hlen, if_neg hcl,
    Bool.not_true, Bool.false_eq_true, if_false]

/-- The create handler either leaves the store unchanged or appends one
record whose center code was not stored before. -/
theorem create_store_shape (store : Store) (now : Nat) (ce : Option String)
    (data : CreateRequest) :
    (create_training_center store now ce data).2 = store ∨
    ∃ rec, (create_training_center store now ce data).2
        = ⟨store.rows ++ [rec], store.nextId + 1⟩ ∧
      store.rows.find? (fun r => r.center_code == rec.center_code) = none := by
  unfold create_training_center
  repeat' split
  all_goals first
    | exact Or.inl rfl
    | exact Or.inr ⟨_, rfl, by assumption⟩

/-- Uniqueness of `center_code` is an invariant of the create handler. -/
theorem code_unique_preserved (store : Store) (now : Nat) (ce : Option String)
    (data : CreateRequest)
    (h : (store.rows.map (fun r => r.center_code)).Nodup) :
    (((create_training_center store now ce data).2).rows.map
        (fun r => r.center_code)).Nodup := by
  rcases create_store_shape store now ce data with hs | ⟨rec, hs, hfind⟩
  · rw [hs]; exact h
  · rw [hs]
    have hfresh : ∀ r ∈ store.rows, r.center_code ≠ rec.center_code := by
      intro r hr
      have := List.find?_eq_none.mp hfind r hr
      simpa using this
    simp only [List.map_append, List.map_cons, List.map_nil]
    rw [List.nodup_append]
    refine ⟨h, List.nodup_singleton _, ?_⟩
    intro x hx hx2
    simp only [List.mem_map] at hx
    obtain ⟨r, hr, hrx⟩ := hx
    simp only [List.mem_singleton] at hx2
    exact hfresh r hr (hrx.symm ▸ hx2 ▸ rfl)

/-- C2: for every create request failing the spec validator, the handler
answers 400 with the message of the first failing check in spec order,
for every store, timestamp and commit outcome, and returns the store
unchanged: no store access happens before all six checks pass. -/
theorem c2_validation_order (data : CreateRequest) (msg : String)
    (store : Store) (now : Nat) (ce : Option String)
    (h : specValidation data = some msg) :
    create_training_center store now ce data = ((.err msg, 400), store) := by
  unfold specValidation at h
  unfold create_training_center
  repeat' split at h
  all_goals simp_all

/-- Witness for C2 at a concrete request missing `contact_phone`. -/
theorem c2_validation_order_witness :
    create_training_center ⟨[], 1⟩ 0 none
        { center_name := some "Alpha"
          center_code := some "ABC123456789"
          address := some ⟨some "12 Main St", some "Pune", some "MH",
            some "411001"⟩
          contact_phone := none
          contact_email := none
          student_capacity := none
          courses_offered := none }
      = ((.err "contact_phone is required", 400), ⟨[], 1⟩) :=
  c2_validation_order _ _ _ _ _ rfl

/-- C3: two create requests with the same 12-character code, each passing
all pure checks, a fresh code and a healthy store: the first answers 201
and appends its record; the second, run on the resulting store, answers
400 with the duplicate-code message and persists nothing.  Moreover the
create handler preserves uniqueness of `center_code` across the store. -/
theorem c3_duplicate_code_unique (store : Store) (now1 now2 : Nat)
    (ce2 : Option String) (d1 d2 : CreateRequest) (cd : String)
    (h1 : specValidation d1 = none) (h2 : specValidation d2 = none)
    (hc1 : d1.center_code = some cd) (hc2 : d2.center_code = some cd)
    (hfresh : dup_exists store cd = false) :
    (∃ rec,
      create_training_center store now1 none d1
        = ((.record rec.to_dict, 201),
            ⟨store.rows ++ [rec], store.nextId + 1⟩) ∧
      rec.center_code = cd ∧
      create_training_center ⟨store.rows ++ [rec], store.nextId + 1⟩
          now2 ce2 d2
        = ((.err "A training center with this CenterCode already exists", 400),
            ⟨store.rows ++ [rec], store.nextId + 1⟩))
    ∧ ∀ (s : Store) (now : Nat) (ce : Option String) (d : CreateRequest),
        (s.rows.map (fun r => r.center_code)).Nodup →
        (((create_training_center s now ce d).2).rows.map
            (fun r => r.center_code)).Nodup := by
  constructor
  · obtain ⟨nm, cd1, ph, a, da, ci, st, pc, hn, hc, hp, ha, hda, hci, hst,
      hpc, hlen, hcl, he, hph⟩ := specValidation_none_components d1 h1
    rw [hc1] at hc
    injection hc with hcd
    subst hcd
    have hfind : store.rows.find? (fun r => r.center_code == cd) = none := by
      cases hfx : store.rows.find? (fun r => r.center_code == cd) with
      | none => rfl
      | some r =>
        unfold dup_exists at hfresh
        rw [hfx] at hfresh
        simp at hfresh
    have hmain := create_valid_eq store now1 none d1 nm cd ph a da ci st pc
      hn hc1 hp ha hda hci hst hpc hlen hcl he hph hfind
    refine ⟨_, hmain, rfl, ?_⟩
    obtain ⟨nm2, cd2, ph2, a2, da2, ci2, st2, pc2, hn2, hcc2, hp2, ha2, hda2,
      hci2, hst2, hpc2, hlen2, hcl2, he2, hph2⟩ :=
      specValidation_none_components d2 h2
    rw [hc2] at hcc2
    injection hcc2 with hcd2
    subst hcd2
    have hdup2 : (store.rows ++ [fromRequest store.nextId nm cd da ci st pc
        d1.student_capacity (d1.courses_offered.getD []) d1.contact_email
        ph now1]).find? (fun r => r.center_code == cd)
        = some (fromRequest store.nextId nm cd da ci st pc
            d1.student_capacity (d1.courses_offered.getD []) d1.contact_email
            ph now1) := by
      rw [List.find?_append, hfind]
      simp only [Option.none_or]
      exact List.find?_cons_of_pos _ (by simp [fromRequest])
    exact create_dup_eq _ now2 ce2 d2 nm2 cd ph2 a2 da2 ci2 st2 pc2 _
      hn2 hc2 hp2 ha2 hda2 hci2 hst2 hpc2 hlen2 hcl2 he2 hph2 hdup2
  · intro s now ce d hnd
    exact code_unique_preserved s now ce d hnd

/-- Witness for C3: the sample request twice, against the empty store. -/
theorem c3_duplicate_code_unique_witness :
    (∃ rec,
      create_training_center ⟨[], 1⟩ 5 none sampleRequest
        = ((.record rec.to_dict, 201), ⟨[] ++ [rec], 1 + 1⟩) ∧
      rec.center_code = "ABC123456789" ∧
      create_training_center ⟨[] ++ [rec], 1 + 1⟩ 6 none sampleRequest
        = ((.err "A training center with this CenterCode already exists", 400),
            ⟨[] ++ [rec], 1 + 1⟩))
    ∧ ∀ (s : Store) (now : Nat) (ce : Option String) (d : CreateRequest),
        (s.rows.map (fun r => r.center_code)).Nodup →
        (((create_training_center s now ce d).2).rows.map
            (fun r => r.center_code)).Nodup :=
  c3_duplicate_code_unique ⟨[], 1⟩ 5 6 none sampleRequest sampleRequest
    "ABC123456789" rfl rfl rfl rfl rfl

/-- C4: the List endpoint answers 200 with exactly the stored records that
match all supplied filters conjunctively, by exact string equality; absent
parameters impose no filter (no filters at all returns every record), and
an unmatched filter set returns the empty sequence, still with 200. -/
theorem c4_list_filters (store : Store) (q : List (String × String)) :
    get_training_centers store q
      = (.records ((store.rows.filter (matchesFilters q)).map
          TrainingCenter.to_dict), 200)
    ∧ (qget q "city" = none → qget q "state" = none →
        qget q "pincode" = none →
        get_training_centers store q
          = (.records (store.rows.map TrainingCenter.to_dict), 200))
    ∧ (store.rows.filter (matchesFilters q) = [] →
        get_training_centers store q = (.records [], 200)) := by
  have hmain : get_training_centers store q
      = (.records ((store.rows.filter (matchesFilters q)).map
          TrainingCenter.to_dict), 200) := by
    unfold get_training_centers matchesFilters
    cases hc : qget q "city" <;> cases hs : qget q "state" <;>
      cases hp : qget q "pincode" <;>
      simp [List.filter_filter, Bool.and_assoc, Bool.and_comm,
        Bool.and_left_comm, List.filter_true]
  refine ⟨hmain, ?_, ?_⟩
  · intro h1 h2 h3
    rw [hmain]
    unfold matchesFilters
    rw [h1, h2, h3]
    simp [List.filter_true]
  · intro h
    rw [hmain, h]
    rfl

/-- Witness for C4: one stored row; no filters returns it, a non-matching
city filter returns the empty sequence. -/
theorem c4_list_filters_witness :
    get_training_centers ⟨[sampleRow], 5⟩ []
      = (.records ([sampleRow].map TrainingCenter.to_dict), 200)
    ∧ get_training_centers ⟨[sampleRow], 5⟩ [("city", "X")]
      = (.records [], 200) :=
  ⟨(c4_list_filters ⟨[sampleRow], 5⟩ []).2.1 rfl rfl rfl,
    (c4_list_filters ⟨[sampleRow], 5⟩ [("city", "X")]).2.2 (by decide)⟩

/-- C10: two List requests whose query strings agree on the `city`,
`state` and `pincode` lookups produce identical responses: no other query
parameter influences the result. -/
theorem c10_other_params_ignored (store : Store)
    (q1 q2 : List (String × String))
    (hc : qget q1 "city" = qget q2 "city")
    (hs : qget q1 "state" = qget q2 "state")
    (hp : qget q1 "pincode" = qget q2 "pincode") :
    get_training_centers store q1 = get_training_centers store q2 := by
  unfold get_training_centers
  simp only [hc, hs, hp]

/-- Witness for C10: an extra unknown parameter does not change the
response. -/
theorem c10_other_params_ignored_witness :
    get_training_centers ⟨[sampleRow], 5⟩ [("city", "Pune"), ("debug", "1")]
      = get_training_centers ⟨[sampleRow], 5⟩ [("city", "Pune")] :=
  c10_other_params_ignored ⟨[sampleRow], 5⟩ _ _ rfl rfl rfl

/-- C5 counterexample: the address "a@b.@" matches the pattern the spec
words describe (one-or-more non-@ chars, `@`, one-or-more non-@ chars,
`.`, one-or-more chars), under the anchored reading and a fortiori the
prefix reading, yet the handler rejects it with 400 "Invalid email
format", because the code pattern requires non-@ characters after the
dot.  So the claimed equivalence fails at this input. -/
theorem c5_email_format_counterexample :
    specEmailRE.fullmatch "a@b.@" = true
    ∧ specEmailRE.prefixmatch "a@b.@" = true
    ∧ validate_email "a@b.@" = false
    ∧ create_training_center ⟨[], 1⟩ 0 none
        { sampleRequest with contact_email := some "a@b.@" }
      = ((.err "Invalid email format", 400), ⟨[], 1⟩) :=
  ⟨rfl, rfl, rfl, rfl⟩

/-- C5 as amended: for requests that pass the presence and length checks,
the handler answers 400 "Invalid email format" exactly when contact_email
is present and fails the code's pattern, a prefix match of one-or-more
non-@ chars, `@`, one-or-more non-@ chars, `.`, one-or-more non-@ chars;
and a request without contact_email that passes every check is accepted
and serializes contact_email as null. -/
theorem c5_email_format (data : CreateRequest) (store : Store) (now : Nat)
    (ce : Option String) (nm cd ph : String) (a : AddressReq)
    (hn : data.center_name = some nm) (hcd : data.center_code = some cd)
    (ha : data.address = some a) (hp : data.contact_phone = some ph)
    (hlen : ¬ nm.length > 40) (hcl : ¬ cd.length ≠ 12) :
    (create_training_center store now ce data
        = ((.err "Invalid email format", 400), store)
      ↔ ∃ e, data.contact_email = some e ∧ validate_email e = false)
    ∧ ∀ (d2 : CreateRequest) (s2 : Store) (now2 : Nat) (cd2 : String),
        specValidation d2 = none → d2.center_code = some cd2 →
        dup_exists s2 cd2 = false → d2.contact_email = none →
        ∃ rec, create_training_center s2 now2 none d2
            = ((.record rec.to_dict, 201),
                ⟨s2.rows ++ [rec], s2.nextId + 1⟩)
          ∧ rec.contact_email = none
          ∧ rec.to_dict.lookup "contact_email" = some .nil := by
  constructor
  · constructor
    · intro h
      cases hce : data.contact_email with
      | none =>
        exfalso
        unfold create_training_center at h
        rw [hn, hcd, ha, hp] at h
        simp only [hce, Option.any_none, Bool.false_eq_true, if_neg hlen,
          if_neg hcl, if_false] at h
        repeat' split at h
        all_goals simp_all
      | some e =>
        cases hve : validate_email e with
        | false => exact ⟨e, rfl, hve⟩
        | true =>
          exfalso
          unfold create_training_center at h
          rw [hn, hcd, ha, hp] at h
          simp only [hce, hve, Option.any_some, Bool.not_true,
            Bool.false_eq_true, if_neg hlen, if_neg hcl, if_false] at h
          repeat' split at h
          all_goals simp_all
    · rintro ⟨e, hce, hve⟩
      unfold create_training_center
      rw [hn, hcd, ha, hp]
      simp only [hce, hve, Option.any_some, Bool.not_false, if_neg hlen,
        if_neg hcl, if_true]
  · intro d2 s2 now2 cd2 h2 hcc2 hfresh2 hce2
    obtain ⟨nm2, cd2x, ph2, a2, da2, ci2, st2, pc2, hn2, hcx2, hp2, ha2,
      hda2, hci2, hst2, hpc2, hlen2, hcl2, he2, hph2⟩ :=
      specValidation_none_components d2 h2
    rw [hcc2] at hcx2
    injection hcx2 with hcd2x
    subst hcd2x
    have hfind2 : s2.rows.find? (fun r => r.center_code == cd2) = none := by
      cases hfx : s2.rows.find? (fun r => r.center_code == cd2) with
      | none => rfl
      | some r =>
        unfold dup_exists at hfresh2
        rw [hfx] at hfresh2
        simp at hfresh2
    have hmain := create_valid_eq s2 now2 none d2 nm2 cd2 ph2 a2 da2 ci2
      st2 pc2 hn2 hcc2 hp2 ha2 hda2 hci2 hst2 hpc2 hlen2 hcl2 he2 hph2
      hfind2
    refine ⟨_, hmain, ?_, ?_⟩
    all_goals rw [hce2]
    all_goals rfl

/-- Witness for C5 as amended: a malformed address is rejected with the
email-format message, and the sample request without an email is accepted
with a null serialized email. -/
theorem c5_email_format_witness :
    create_training_center ⟨[], 1⟩ 0 none
        { sampleRequest with contact_email := some "not-an-email" }
      = ((.err "Invalid email format", 400), ⟨[], 1⟩)
    ∧ ∃ rec, create_training_center ⟨[], 1⟩ 0 none sampleRequest
        = ((.record rec.to_dict, 201), ⟨[] ++ [rec], 1 + 1⟩)
      ∧ rec.contact_email = none
      ∧ rec.to_dict.lookup "contact_email" = some .nil :=
  ⟨(c5_email_format
      { sampleRequest with contact_email := some "not-an-email" }
      ⟨[], 1⟩ 0 none "Alpha" "ABC123456789" "1234567890" _
      rfl rfl rfl rfl (by decide) (by decide)).1.mpr
      ⟨"not-an-email", rfl, rfl⟩,
    (c5_email_format sampleRequest ⟨[], 1⟩ 0 none "Alpha" "ABC123456789"
      "1234567890" _ rfl rfl rfl rfl (by decide) (by decide)).2
      sampleRequest ⟨[], 1⟩ 0 "ABC123456789" rfl rfl rfl rfl⟩

/-- C6: a valid create request with no `student_capacity`, no
`courses_offered` and no `contact_email` is persisted with null capacity,
null email and the empty storage string for courses, and its 201 response
serializes capacity as null, courses as the empty sequence, and email as
null. -/
theorem c6_optional_defaults (store : Store) (now : Nat)
    (data : CreateRequest) (cd : String)
    (h : specValidation data = none) (hc : data.center_code = some cd)
    (hfresh : dup_exists store cd = false)
    (hsc : data.student_capacity = none)
    (hco : data.courses_offered = none)
    (hce : data.contact_email = none) :
    ∃ rec, create_training_center store now none data
        = ((.record rec.to_dict, 201),
            ⟨store.rows ++ [rec], store.nextId + 1⟩)
      ∧ rec.student_capacity = none
      ∧ rec.contact_email = none
      ∧ rec.courses_offered = ""
      ∧ rec.to_dict.lookup "student_capacity" = some .nil
      ∧ rec.to_dict.lookup "courses_offered" = some (.arr [])
      ∧ rec.to_dict.lookup "contact_email" = some .nil := by
  obtain ⟨nm, cd1, ph, a, da, ci, st, pc, hn, hcc, hp, ha, hda, hci, hst,
    hpc, hlen, hcl, he, hph⟩ := specValidation_none_components data h
  rw [hc] at hcc
  injection hcc with hcd
  subst hcd
  have hfind : store.rows.find? (fun r => r.center_code == cd) = none := by
    cases hfx : store.rows.find? (fun r => r.center_code == cd) with
    | none => rfl
    | some r =>
      unfold dup_exists at hfresh
      rw [hfx] at hfresh
      simp at hfresh
  have hmain := create_valid_eq store now none data nm cd ph a da ci st pc
    hn hc hp ha hda hci hst hpc hlen hcl he hph hfind
  refine ⟨_, hmain, ?_, ?_, ?_, ?_, ?_, ?_⟩
  all_goals rw [hsc, hco, hce]
  all_goals rfl

/-- Witness for C6: the sample request leaves all three optional fields
out. -/
theorem c6_optional_defaults_witness :
    ∃ rec, create_training_center ⟨[], 1⟩ 7 none sampleRequest
        = ((.record rec.to_dict, 201), ⟨[] ++ [rec], 1 + 1⟩)
      ∧ rec.student_capacity = none
      ∧ rec.contact_email = none
      ∧ rec.courses_offered = ""
      ∧ rec.to_dict.lookup "student_capacity" = some .nil
      ∧ rec.to_dict.lookup "courses_offered" = some (.arr [])
      ∧ rec.to_dict.lookup "contact_email" = some .nil :=
  c6_optional_defaults ⟨[], 1⟩ 7 sampleRequest "ABC123456789"
    rfl rfl rfl rfl rfl rfl

/-- C7: when the commit raises, the transaction is rolled back, the store
is exactly what it was before the request, and the handler answers 500
with the message "Database error: " followed by the underlying text. -/
theorem c7_commit_failure_rollback (store : Store) (now : Nat) (e : String)
    (data : CreateRequest) (cd : String)
    (h : specValidation data = none) (hc : data.center_code = some cd)
    (hfresh : dup_exists store cd = false) :
    create_training_center store now (some e) data
      = ((.err ("Database error: " ++ e), 500), store) := by
  obtain ⟨nm, cd1, ph, a, da, ci, st, pc, hn, hcc, hp, ha, hda, hci, hst,
    hpc, hlen, hcl, he, hph⟩ := specValidation_none_components data h
  rw [hc] at hcc
  injection hcc with hcd
  subst hcd
  have hfind : store.rows.find? (fun r => r.center_code == cd) = none := by
    cases hfx : store.rows.find? (fun r => r.center_code == cd) with
    | none => rfl
    | some r =>
      unfold dup_exists at hfresh
      rw [hfx] at hfresh
      simp at hfresh
  exact create_valid_eq store now (some e) data nm cd ph a da ci st pc
    hn hc hp ha hda hci hst hpc hlen hcl he hph hfind

/-- Witness for C7: the sample request with a failing commit. -/
theorem c7_commit_failure_rollback_witness :
    create_training_center ⟨[], 1⟩ 0 (some "disk full") sampleRequest
      = ((.err ("Database error: " ++ "disk full"), 500), ⟨[], 1⟩) :=
  c7_commit_failure_rollback ⟨[], 1⟩ 0 "disk full" sampleRequest
    "ABC123456789" rfl rfl rfl

/-- Modifying the head of a nonempty list commutes with appending on the
right. -/
theorem modifyHead_append_left {α : Type} (f : α → α) (xs ys : List α)
    (h : xs ≠ []) :
    (xs ++ ys).modifyHead f = xs.modifyHead f ++ ys := by
  cases xs with
  | nil => exact absurd rfl h
  | cons x t => simp [List.modifyHead]

/-- Splitting on a comma distributes over a comma placed between two
character lists, whatever commas those lists contain. -/
theorem splitOn_comma_append_sep (a b : List Char) :
    (a ++ ',' :: b).splitOn ',' = a.splitOn ',' ++ b.splitOn ',' := by
  induction a with
  | nil => simp [List.splitOn, List.splitOnP_cons]
  | cons c a ih =>
    by_cases hc : c = ','
    · subst hc
      simp only [List.cons_append, List.splitOn, List.splitOnP_cons,
        beq_self_eq_true, if_true] at ih ⊢
      rw [ih]
    · have hcb : (c == ',') = false := by simp [hc]
      simp only [List.cons_append, List.splitOn, List.splitOnP_cons, hcb,
        Bool.false_eq_true, if_false] at ih ⊢
      rw [ih, modifyHead_append_left]
      exact List.splitOnP_ne_nil _ _

/-- Comma-intercalation of at least two pieces starts with the first piece
followed by a comma. -/
theorem intercalate_comma_cons₂ (x : List Char) (l : List (List Char))
    (h : l ≠ []) :
    [','].intercalate (x :: l) = x ++ ',' :: [','].intercalate l := by
  cases l with
  | nil => exact absurd rfl h
  | cons y t =>
    simp [List.intercalate, List.intersperse_cons_cons]

/-- Splitting a comma-join of nonempty pieces yields the concatenation of
the splits of the pieces. -/
theorem splitOn_intercalate_flatMap (l : List (List Char)) (h : l ≠ []) :
    ([','].intercalate l).splitOn ','
      = l.flatMap (fun x => x.splitOn ',') := by
  induction l with
  | nil => exact absurd rfl h
  | cons x t ih =>
    cases t with
    | nil => simp [List.intercalate]
    | cons y u =>
      rw [intercalate_comma_cons₂ x (y :: u) (List.cons_ne_nil y u),
        splitOn_comma_append_sep, ih (List.cons_ne_nil y u)]
      simp [List.flatMap_cons]

/-- A comma-split is never empty. -/
theorem length_pos_splitOn (cs : List Char) :
    0 < (cs.splitOn ',').length :=
  List.length_pos.mpr (List.splitOnP_ne_nil _ _)

/-- A list containing a comma splits into at least two pieces. -/
theorem two_le_length_splitOn (cs : List Char) (h : ',' ∈ cs) :
    2 ≤ (cs.splitOn ',').length := by
  obtain ⟨s, t, rfl⟩ := List.append_of_mem h
  rw [splitOn_comma_append_sep, List.length_append]
  have h1 := length_pos_splitOn s
  have h2 := length_pos_splitOn t
  omega

/-- Splitting every element produces at least one piece per element. -/
theorem length_le_flatMap_splitOn (l : List (List Char)) :
    l.length ≤ (l.flatMap (fun x => x.splitOn ',')).length := by
  induction l with
  | nil => simp
  | cons x t ih =>
    rw [List.flatMap_cons, List.length_append, List.length_cons]
    have := length_pos_splitOn x
    omega

/-- If some element contains a comma, splitting every element produces
strictly more pieces than there were elements. -/
theorem length_lt_flatMap_splitOn (l : List (List Char)) (x : List Char)
    (hx : x ∈ l) (hc : ',' ∈ x) :
    l.length < (l.flatMap (fun y => y.splitOn ',')).length := by
  induction l with
  | nil => cases hx
  | cons y t ih =>
    rw [List.flatMap_cons, List.length_append, List.length_cons]
    rcases List.mem_cons.mp hx with rfl | hxt
    · have h2 := two_le_length_splitOn x hc
      have h3 := length_le_flatMap_splitOn t
      omega
    · have h2 := length_pos_splitOn y
      have h3 := ih hxt
      omega

/-- When some course name contains a comma, the read-side split of the
joined storage string is the concatenation of the splits of the inputs,
and that differs from the input sequence. -/
theorem courses_flatMap_of_comma (l : List String) (x : String)
    (hx : x ∈ l) (hc : ',' ∈ x.data) :
    courses_list (joinComma l) = l.flatMap splitComma
    ∧ l.flatMap splitComma ≠ l := by
  have hlne : l ≠ [] := List.ne_nil_of_mem hx
  have hL : l.map String.data ≠ [] := by simp [hlne]
  have hmem : x.data ∈ l.map String.data := List.mem_map_of_mem _ hx
  have hflat := splitOn_intercalate_flatMap (l.map String.data) hL
  have hlt := length_lt_flatMap_splitOn (l.map String.data) x.data hmem hc
  have hrw : ((l.map String.data).flatMap (fun y => y.splitOn ',')).map
      String.mk = l.flatMap splitComma := by
    rw [List.map_flatMap, List.flatMap_map]
    rfl
  have hne : joinComma l ≠ "" := by
    intro h0
    have h1 : [','].intercalate (l.map String.data) = [] :=
      congrArg String.data h0
    rw [h1] at hflat
    have h2 : (([] : List Char).splitOn ',') = [[]] := rfl
    rw [h2] at hflat
    have h3 := congrArg List.length hflat
    simp only [List.length_cons, List.length_nil] at h3
    have h4 : 0 < l.length := List.length_pos.mpr hlne
    rw [List.length_map] at hlt
    omega
  constructor
  · rw [courses_list, if_neg hne]
    show (([','].intercalate (l.map String.data)).splitOn ',').map String.mk
      = l.flatMap splitComma
    rw [hflat, hrw]
  · intro heq
    have hlen := congrArg List.length (hrw.trans heq)
    rw [List.length_map] at hlen
    rw [List.length_map] at hlt
    omega

/-- C9: a valid create request with some course name containing a comma
is accepted, but the 201 response serializes `courses_offered` as the
concatenation of each input name split on commas, which differs from the
input sequence: the comma-join for storage is not injective. -/
theorem c9_comma_courses_not_roundtripped (data : CreateRequest)
    (store : Store) (now : Nat) (cd : String) (l : List String) (x : String)
    (h : specValidation data = none) (hc : data.center_code = some cd)
    (hfresh : dup_exists store cd = false)
    (hco : data.courses_offered = some l)
    (hx : x ∈ l) (hcomma : ',' ∈ x.data) :
    ∃ rec, create_training_center store now none data
        = ((.record rec.to_dict, 201),
            ⟨store.rows ++ [rec], store.nextId + 1⟩)
      ∧ rec.to_dict.lookup "courses_offered"
          = some (.arr (l.flatMap splitComma))
      ∧ l.flatMap splitComma ≠ l := by
  obtain ⟨nm, cd1, ph, a, da, ci, st, pc, hn, hcc, hp, ha, hda, hci, hst,
    hpc, hlen, hcl, he, hph⟩ := specValidation_none_components data h
  rw [hc] at hcc
  injection hcc with hcd
  subst hcd
  have hfind : store.rows.find? (fun r => r.center_code == cd) = none := by
    cases hfx : store.rows.find? (fun r => r.center_code == cd) with
    | none => rfl
    | some r =>
      unfold dup_exists at hfresh
      rw [hfx] at hfresh
      simp at hfresh
  have hmain := create_valid_eq store now none data nm cd ph a da ci st pc
    hn hc hp ha hda hci hst hpc hlen hcl he hph hfind
  have hcf := courses_flatMap_of_comma l x hx hcomma
  refine ⟨_, hmain, ?_, hcf.2⟩
  rw [hco]
  exact congrArg (fun z => some (JVal.arr z)) hcf.1

/-- Witness for C9: courses ["a,b", "c"] come back as ["a", "b", "c"]. -/
theorem c9_comma_courses_not_roundtripped_witness :
    ∃ rec, create_training_center ⟨[], 1⟩ 0 none
        { sampleRequest with courses_offered := some ["a,b", "c"] }
        = ((.record rec.to_dict, 201), ⟨[] ++ [rec], 1 + 1⟩)
      ∧ rec.to_dict.lookup "courses_offered"
          = some (.arr (["a,b", "c"].flatMap splitComma))
      ∧ ["a,b", "c"].flatMap splitComma ≠ ["a,b", "c"] :=
  c9_comma_courses_not_roundtripped
    { sampleRequest with courses_offered := some ["a,b", "c"] }
    ⟨[], 1⟩ 0 "ABC123456789" ["a,b", "c"] "a,b"
    rfl rfl rfl rfl (by decide) (by decide)
